import Mathlib

/-!
Shallow embedding of the simple-calculator repository (src/app.js).

The expression evaluator (`SafeCalculator.evaluate`) is a string-rewriting
sanitizer in front of a generic JavaScript arithmetic execution primitive.
We embed the sanitizer faithfully over `List Char` / `String`, and model the
execution primitive (the `Function` constructor applied to the sanitized
text) as an exact-rational infix-arithmetic evaluator: JavaScript numbers
are modelled as `ℚ`, non-finite values (Infinity / NaN) as an absorbing
marker, and thrown exceptions as a separate outcome.

The rewrite loop of `evaluate` is genuinely able to diverge (the JS `while`
loop has no guaranteed progress), so the loop is indexed by a step budget
(`fuel`); `none` means the budget ran out, i.e. the JS code is still looping
after that many iterations.
-/

/-- Error kinds of the calculator: one constructor per distinct error message
string produced by src/app.js (note `invalidPowerExpression`, the message
produced by the character validation when a power rewrite occurred, which is
an eleventh message beyond the spec's ten-kind taxonomy). -/
inductive CalcError where
  | emptyExpression
  | invalidCharacters
  | tooManyPowerOps
  | unmatchedParens
  | divisionByZero
  | invalidResult
  | invalidExpression
  | invalidPowerExpression
  | negativeSqrt
  | invalidPower
  | invalidPercentage
deriving DecidableEq

/-- Exact message strings returned by src/app.js for each error kind. -/
def errorMessage : CalcError → String
  | .emptyExpression => "Error: Empty expression"
  | .invalidCharacters => "Error: Invalid characters"
  | .tooManyPowerOps => "Error: Too many power operations"
  | .unmatchedParens => "Error: Unmatched parentheses"
  | .divisionByZero => "Error: Division by zero"
  | .invalidResult => "Error: Invalid result"
  | .invalidExpression => "Error: Invalid expression"
  | .invalidPowerExpression => "Error: Invalid power expression"
  | .negativeSqrt => "Error: Negative square root"
  | .invalidPower => "Error: Invalid power"
  | .invalidPercentage => "Error: Invalid percentage"

/-- The ten error kinds of the spec's §7 taxonomy, as their message strings. -/
def taxonomyMessages : List String :=
  [ "Error: Empty expression"
  , "Error: Invalid characters"
  , "Error: Too many power operations"
  , "Error: Unmatched parentheses"
  , "Error: Division by zero"
  , "Error: Invalid expression"
  , "Error: Invalid result"
  , "Error: Negative square root"
  , "Error: Invalid power"
  , "Error: Invalid percentage" ]

/-- All message strings the code can actually produce: the ten of the
taxonomy plus the eleventh message of the power-mode character validation. -/
def allowedMessages : List String :=
  taxonomyMessages ++ [ "Error: Invalid power expression" ]

/-- Whitespace class of the JavaScript `\s` regex escape (restricted to the
ASCII whitespace characters; the calculator never feeds it others). Used by
both the `trim()` emptiness test and the `replace(/\s/g, '')` strip. -/
def isWS (c : Char) : Bool :=
  c = ' ' || c = '\t' || c = '\n' || c = '\r' || c = '\x0b' || c = '\x0c'

/-- Models `expression.replace(/\s/g, '')` from src/app.js line 19. -/
def stripWS (l : List Char) : List Char := l.filter (fun c => !(isWS c))

/-- The string `Math.PI.toString()` substituted for the pi constant. -/
def piDigits : List Char := ("3.141592653589793").toList

/-- Models `expression.replace(/π/g, Math.PI.toString())` (line 22). -/
def replacePi : List Char → List Char
  | [] => []
  | c :: t => if c = 'π' then piDigits ++ replacePi t else c :: replacePi t

/-- Models `expression.replace(/pi/gi, Math.PI.toString())` (line 23):
a global, case-insensitive, left-to-right non-overlapping replacement of the
two-letter token `pi`. -/
def replacePiWord : List Char → List Char
  | [] => []
  | [c] => [c]
  | a :: b :: t =>
    if (a = 'p' || a = 'P') && (b = 'i' || b = 'I') then
      piDigits ++ replacePiWord t
    else
      a :: replacePiWord (b :: t)

/-- Normalization prefix of `evaluate`: strip whitespace, substitute the pi
glyph, then the `pi` word (lines 19-23 of src/app.js). -/
def normalizeInput (s : String) : List Char :=
  replacePiWord (replacePi (stripWS s.toList))

/-- Longest digit run at the head of the list. -/
def takeDigits (l : List Char) : List Char := l.takeWhile Char.isDigit

/-- Rest of the list after the longest head digit run. -/
def dropDigits (l : List Char) : List Char := l.dropWhile Char.isDigit

/-- Optional fractional part `\.\d+` at the head of the list (the regex takes
it only when the dot is followed by at least one digit). -/
def matchFrac (r : List Char) : Option (List Char × List Char) :=
  match r with
  | '.' :: u =>
    match u with
    | x :: _ => if x.isDigit then some ('.' :: takeDigits u, dropDigits u) else none
    | [] => none
  | _ => none

/-- Numeric token `\d+(?:\.\d+)?` at the head of the list, as used for both
the base and the exponent of the power-rewrite regex of src/app.js line 31.
Returns the matched text and the rest. -/
def matchNumTok : List Char → Option (List Char × List Char)
  | [] => none
  | c :: t =>
    if c.isDigit then
      let d := takeDigits (c :: t)
      let r := dropDigits (c :: t)
      match matchFrac r with
      | some (f, r2) => some (d ++ f, r2)
      | none => some (d, r)
    else none

/-- One attempted match of the power-rewrite regex
`(\([^)]+\)|\d+(?:\.\d+)?)\^(\d+(?:\.\d+)?)` at the head of the list.
The first alternative `\([^)]+\)` necessarily ends at the first `)` after the
opening parenthesis (the class excludes `)`), so no backtracking cases remain.
Returns (base text, exponent text, rest) on success. -/
def matchPowAt (l : List Char) : Option (List Char × List Char × List Char) :=
  let base? : Option (List Char × List Char) :=
    match l with
    | '(' :: t =>
      let inner := t.takeWhile (fun c => c ≠ ')')
      let rest := t.dropWhile (fun c => c ≠ ')')
      match inner, rest with
      | _ :: _, ')' :: r2 => some ('(' :: (inner ++ [')']), r2)
      | _, _ => none
    | _ => matchNumTok l
  match base? with
  | some (b, r) =>
    match r with
    | '^' :: r2 =>
      match matchNumTok r2 with
      | some (e, r3) => some (b, e, r3)
      | none => none
    | _ => none
  | none => none

/-- The replacement text `Math.pow(${base},${exp})` of src/app.js line 32. -/
def powTemplate (b e : List Char) : List Char :=
  ("Math.pow(").toList ++ b ++ ',' :: (e ++ [')'])

/-- Left-to-right scan of one global regex replacement: at each position try
the match; on success emit the replacement and continue after the match (the
replacement text is not rescanned in this pass), otherwise keep the character
and advance by one. The step budget is the input length, which always
suffices since each step consumes at least one input character. -/
def replacePowScan : Nat → List Char → List Char
  | 0, l => l
  | _ + 1, [] => []
  | n + 1, c :: t =>
    match matchPowAt (c :: t) with
    | some (b, e, rest) => powTemplate b e ++ replacePowScan n rest
    | none => c :: replacePowScan n t

/-- One pass of `expression.replace(/(\([^)]+\)|\d+(?:\.\d+)?)\^(\d+(?:\.\d+)?)/g, ...)`
(src/app.js line 31). -/
def replacePowAll (l : List Char) : List Char := replacePowScan l.length l

/-- The `while (expression.includes('^'))` body of src/app.js lines 28-40,
entered only when a caret is present: replace; if no caret remains, exit with
the rewritten text; if `expression.split('^').length > 10` (i.e. at least ten
carets remain), return the too-many-power-operations error; otherwise loop.
`none` means the step budget was exhausted with the JS loop still running. -/
def powLoopGo : Nat → List Char → Option (Except CalcError (List Char))
  | 0, _ => none
  | n + 1, l =>
    let l2 := replacePowAll l
    if l2.contains '^' then
      if l2.count '^' + 1 > 10 then some (Except.error CalcError.tooManyPowerOps)
      else powLoopGo n l2
    else some (Except.ok l2)

/-- The whole power-rewrite phase: the loop runs only when the normalized
text contains a caret, and `hasPower` records whether it ran at all. -/
def powPhase (fuel : Nat) (l : List Char) :
    Option (Except CalcError (List Char × Bool)) :=
  if l.contains '^' then
    match powLoopGo fuel l with
    | none => none
    | some (Except.error k) => some (Except.error k)
    | some (Except.ok e) => some (Except.ok (e, true))
  else some (Except.ok (l, false))

/-- Character class of `/^[0-9+\-*\/().π]+$/` (src/app.js line 44). -/
def originalAllowed (c : Char) : Bool :=
  c.isDigit || c = '+' || c = '-' || c = '*' || c = '/' ||
    c = '(' || c = ')' || c = '.' || c = 'π'

/-- Character class of `/^[0-9+\-*\/().πMathpow,\s]+$/` (src/app.js line 45). -/
def mathPowAllowed (c : Char) : Bool :=
  originalAllowed c || c = 'M' || c = 'a' || c = 't' || c = 'h' ||
    c = 'p' || c = 'o' || c = 'w' || c = ',' || isWS c

/-- An anchored one-or-more character-class regex holds exactly when the text
is nonempty and every character is in the class. -/
def matchesAll (p : Char → Bool) (l : List Char) : Bool :=
  !l.isEmpty && l.all p

/-- Character validation of src/app.js lines 47-52: without a power rewrite
the original pattern is tested on the re-stripped text and failure yields
the invalid-characters error; with a power rewrite the extended pattern is
tested and failure yields the distinct invalid-power-expression error. -/
def validatePhase (e : List Char) (hasPower : Bool) : Option CalcError :=
  if !hasPower && !(matchesAll originalAllowed (stripWS e)) then
    some CalcError.invalidCharacters
  else if hasPower && !(matchesAll mathPowAllowed e) then
    some CalcError.invalidPowerExpression
  else none

/-- Running parenthesis counter of src/app.js lines 55-61: `(` increments,
`)` decrements, a negative counter or a nonzero final counter is unmatched. -/
def parenBalanced : List Char → Int → Bool
  | [], n => n == 0
  | c :: t, n =>
    let m : Int := if c = '(' then n + 1 else if c = ')' then n - 1 else n
    if m < 0 then false else parenBalanced t m

/-- Continuation of the division-by-zero regex `\/\s*0(?!\.)` after the
slash: optional whitespace, a zero, and a negative lookahead for a dot. -/
def divZeroAfter (t : List Char) : Bool :=
  match t.dropWhile isWS with
  | '0' :: r =>
    (match r with
     | '.' :: _ => false
     | _ => true)
  | _ => false

/-- Models `/\/\s*0(?!\.)/.test(expression)` (src/app.js line 64): the text
contains a slash followed (after optional whitespace) by a zero that is not
immediately followed by a dot. -/
def divZeroMatch : List Char → Bool
  | [] => false
  | c :: t => (c = '/' && divZeroAfter t) || divZeroMatch t

/-- Outcome of the generic JS execution primitive on the sanitized text:
a finite numeric value, a non-finite value (Infinity or NaN, which the code
maps to the invalid-result error), or a thrown exception (syntax or type
error, mapped to the invalid-expression error). -/
inductive ExecOut where
  | val (q : ℚ)
  | nonFinite
  | thrown
deriving DecidableEq

/-- Values during execution: `some q` is a finite number, `none` a non-finite
one (Infinity / NaN). Non-finiteness is treated as absorbing by the
arithmetic operations, matching JS except for exotic corners (such as a
finite quotient by Infinity) that the sanitized inputs cannot reach. -/
def negV : Option ℚ → Option ℚ
  | some a => some (-a)
  | none => none

/-- Addition on execution values. -/
def addV : Option ℚ → Option ℚ → Option ℚ
  | some a, some b => some (a + b)
  | _, _ => none

/-- Subtraction on execution values. -/
def subV : Option ℚ → Option ℚ → Option ℚ
  | some a, some b => some (a - b)
  | _, _ => none

/-- Multiplication on execution values. -/
def mulV : Option ℚ → Option ℚ → Option ℚ
  | some a, some b => some (a * b)
  | _, _ => none

/-- Division on execution values: dividing by zero gives a non-finite value
(JS Infinity or NaN), never a thrown error. -/
def divV : Option ℚ → Option ℚ → Option ℚ
  | some a, some b => if b = 0 then none else some (a / b)
  | _, _ => none

/-- The `Math.pow` builtin over exact rationals: defined for integer
exponents (the rewrite only produces decimal-literal exponents; a fractional
exponent would in general have an irrational value, outside the
exact-rational model, and is mapped to the non-finite marker). `0` raised to
a negative power is JS Infinity, hence non-finite. -/
def mathPowQ (b e : ℚ) : Option ℚ :=
  if e.den = 1 then
    if b = 0 && e.num < 0 then none else some (b ^ e.num)
  else none

/-- `Math.pow` lifted to execution values. -/
def powV : Option ℚ → Option ℚ → Option ℚ
  | some a, some b => mathPowQ a b
  | _, _ => none

/-- Numeric value of a digit run. -/
def digitsToNat (l : List Char) : Nat :=
  l.foldl (fun n c => 10 * n + (c.toNat - ('0').toNat)) 0

/-- A JS decimal number literal at the head of the list: `digits`,
`digits.digits?` or `.digits`. In strict mode (the code wraps the text in
`"use strict"`) a literal starting with `0` followed by another digit is a
legacy-octal syntax error, hence no match. -/
def parseNumLit (l : List Char) : Option (ℚ × List Char) :=
  match l with
  | '.' :: u =>
    (match u with
     | x :: _ =>
       if x.isDigit then
         let f := takeDigits u
         some ((digitsToNat f : ℚ) / (10 : ℚ) ^ f.length, dropDigits u)
       else none
     | [] => none)
  | c :: t =>
    if c.isDigit then
      if c = '0' && (match t with | d :: _ => d.isDigit | [] => false) then none
      else
        let d := takeDigits (c :: t)
        let r := dropDigits (c :: t)
        match r with
        | '.' :: u =>
          let f := takeDigits u
          some ((digitsToNat d : ℚ) + (digitsToNat f : ℚ) / (10 : ℚ) ^ f.length,
                dropDigits u)
        | _ => some ((digitsToNat d : ℚ), r)
    else none
  | [] => none

mutual

/-- Comma-sequence expression (JS comma operator, value of the last
operand), the entry point since the code evaluates `return (text)`. -/
def parseCSeq : Nat → List Char → Option (Option ℚ × List Char)
  | 0, _ => none
  | n + 1, l =>
    match parseAddE n l with
    | some (v, r) => parseCSeqRest n v r
    | none => none

/-- Trailing `, expr` operands of a comma sequence. -/
def parseCSeqRest : Nat → Option ℚ → List Char → Option (Option ℚ × List Char)
  | 0, _, _ => none
  | n + 1, v, l =>
    match l with
    | ',' :: t =>
      (match parseAddE n t with
       | some (w, r) => parseCSeqRest n w r
       | none => none)
    | _ => some (v, l)

/-- Additive expression: left-associative `+` and `-` over terms. -/
def parseAddE : Nat → List Char → Option (Option ℚ × List Char)
  | 0, _ => none
  | n + 1, l =>
    match parseTermE n l with
    | some (v, r) => parseAddRest n v r
    | none => none

/-- Trailing additive operators. In the whitespace-free sanitized text an
immediately repeated `+` or `-` lexes in JS as the `++` or `--` token, a
syntax error on number operands. -/
def parseAddRest : Nat → Option ℚ → List Char → Option (Option ℚ × List Char)
  | 0, _, _ => none
  | n + 1, v, l =>
    match l with
    | '+' :: t =>
      (match t with
       | '+' :: _ => none
       | _ =>
         match parseTermE n t with
         | some (w, r) => parseAddRest n (addV v w) r
         | none => none)
    | '-' :: t =>
      (match t with
       | '-' :: _ => none
       | _ =>
         match parseTermE n t with
         | some (w, r) => parseAddRest n (subV v w) r
         | none => none)
    | _ => some (v, l)

/-- Multiplicative expression: left-associative `*` and `/` over unary
expressions. -/
def parseTermE : Nat → List Char → Option (Option ℚ × List Char)
  | 0, _ => none
  | n + 1, l =>
    match parseUnaryE n l with
    | some (v, r) => parseTermRest n v r
    | none => none

/-- Trailing multiplicative operators. -/
def parseTermRest : Nat → Option ℚ → List Char → Option (Option ℚ × List Char)
  | 0, _, _ => none
  | n + 1, v, l =>
    match l with
    | '*' :: t =>
      (match parseUnaryE n t with
       | some (w, r) => parseTermRest n (mulV v w) r
       | none => none)
    | '/' :: t =>
      (match parseUnaryE n t with
       | some (w, r) => parseTermRest n (divV v w) r
       | none => none)
    | _ => some (v, l)

/-- Unary `+` and `-`. A directly repeated sign lexes as `++` or `--` and is
a syntax error. -/
def parseUnaryE : Nat → List Char → Option (Option ℚ × List Char)
  | 0, _ => none
  | n + 1, l =>
    match l with
    | '-' :: t =>
      (match t with
       | '-' :: _ => none
       | _ =>
         match parseUnaryE n t with
         | some (v, r) => some (negV v, r)
         | none => none)
    | '+' :: t =>
      (match t with
       | '+' :: _ => none
       | _ => parseUnaryE n t)
    | _ => parseAtomE n l

/-- Atom: a `Math.pow(a,b)` call (the only identifier the sanitized text can
meaningfully contain; anything else starting with a letter throws), a
parenthesized comma sequence, or a number literal. -/
def parseAtomE : Nat → List Char → Option (Option ℚ × List Char)
  | 0, _ => none
  | n + 1, l =>
    if l.take 9 = ("Math.pow(").toList then
      match parseAddE n (l.drop 9) with
      | some (a, r1) =>
        (match r1 with
         | ',' :: r2 =>
           (match parseAddE n r2 with
            | some (b, r3) =>
              (match r3 with
               | ')' :: r4 => some (powV a b, r4)
               | _ => none)
            | none => none)
         | _ => none)
      | none => none
    else
      match l with
      | '(' :: t =>
        (match parseCSeq n t with
         | some (v, r) =>
           (match r with
            | ')' :: r2 => some (v, r2)
            | _ => none)
         | none => none)
      | _ =>
        match parseNumLit l with
        | some (q, r) => some (some q, r)
        | none => none

end

/-- Models `Function('"use strict"; return (' + expression + ')')()`
(src/app.js line 71) on the sanitized text: parse and evaluate the whole
text as an infix arithmetic expression; leftover text or a parse failure is
a thrown error. The internal step budget is generous enough for any input
(each grammar level either consumes a character or moves down one of at most
seven levels). -/
def execJS (l : List Char) : ExecOut :=
  match parseCSeq (20 * (l.length + 2)) l with
  | some (v, []) =>
    (match v with
     | some q => ExecOut.val q
     | none => ExecOut.nonFinite)
  | _ => ExecOut.thrown

/-- Models `Math.round(result * 100000000) / 100000000` (src/app.js line 79);
JS `Math.round x` is `⌊x + 1/2⌋` (round half toward positive infinity). -/
def jsRound8 (q : ℚ) : ℚ :=
  (Int.floor (q * 100000000 + 1 / 2) : ℚ) / 100000000

/-- Result of an evaluation: a number or an error kind. -/
inductive EvalRes where
  | num (q : ℚ)
  | err (k : CalcError)
deriving DecidableEq

/-- Final execution step of `evaluate` (src/app.js lines 68-82): run the
sanitized text; a non-finite result is the invalid-result error, a thrown
exception the invalid-expression error, and a finite result is rounded to 8
decimal places. -/
def runExec (e : List Char) : EvalRes :=
  match execJS e with
  | ExecOut.val r => EvalRes.num (jsRound8 r)
  | ExecOut.nonFinite => EvalRes.err CalcError.invalidResult
  | ExecOut.thrown => EvalRes.err CalcError.invalidExpression

/-- Sanitization pipeline of `SafeCalculator.evaluate` up to (but not
including) the division-by-zero check: emptiness test, normalization, power
rewriting (with step budget `fuel`), character validation and parenthesis
balancing. `some (Except.ok e)` is the sanitized text handed on; `none`
means the rewrite loop is still running after `fuel` iterations. -/
def prepare (fuel : Nat) (s : String) : Option (Except CalcError (List Char)) :=
  if s.toList.all isWS then some (Except.error CalcError.emptyExpression)
  else
    match powPhase fuel (normalizeInput s) with
    | none => none
    | some (Except.error k) => some (Except.error k)
    | some (Except.ok (e, hp)) =>
      match validatePhase e hp with
      | some k => some (Except.error k)
      | none =>
        if parenBalanced e 0 then some (Except.ok e)
        else some (Except.error CalcError.unmatchedParens)

namespace SafeCalculator

/-- Models `SafeCalculator.evaluate` (src/app.js lines 13-83). The `fuel`
argument bounds the iterations of the power-rewrite `while` loop; `none`
means the JS loop has not terminated within that budget (the loop has no
inherent bound, see the C1 theorem). -/
def evaluate (fuel : Nat) (s : String) : Option EvalRes :=
  match prepare fuel s with
  | none => none
  | some (Except.error k) => some (EvalRes.err k)
  | some (Except.ok e) =>
    if divZeroMatch e then some (EvalRes.err CalcError.divisionByZero)
    else some (runExec e)

/-- Models `SafeCalculator.sqrt` (src/app.js lines 90-93): negative input is
the negative-square-root error, otherwise `Math.sqrt` (the principal real
square root; inputs are modelled as exact rationals). -/
noncomputable def sqrt (x : ℚ) : Except CalcError Real :=
  if x < 0 then Except.error CalcError.negativeSqrt
  else Except.ok (Real.sqrt (x : Real))

/-- Models `SafeCalculator.power` (src/app.js lines 101-105): a non-finite
`Math.pow` result is the invalid-power error. -/
def power (b e : ℚ) : Except CalcError ℚ :=
  match mathPowQ b e with
  | some v => Except.ok v
  | none => Except.error CalcError.invalidPower

/-- Models `SafeCalculator.percentage` (src/app.js lines 112-120): evaluate
the expression; an error string is returned unchanged, a number is divided
by 100 (nothing in the body throws, so the catch branch is dead). -/
def percentage (fuel : Nat) (s : String) : Option EvalRes :=
  match evaluate fuel s with
  | none => none
  | some (EvalRes.err k) => some (EvalRes.err k)
  | some (EvalRes.num v) => some (EvalRes.num (v / 100))

end SafeCalculator

/-- Models the error-marker test used throughout src/app.js:
`value === 'Error' || value.startsWith('Error:')`. -/
def isErrorVal (s : String) : Bool :=
  s == ("Error") || (s.toList.take 6 == ("Error:").toList)

/-- Models `appendToDisplay` (src/app.js lines 314-321) as a pure function
from the current display value and the appended text to the new display
value: an error marker is replaced outright, otherwise the text is appended. -/
def appendToDisplay (display v : String) : String :=
  if isErrorVal display then v else display ++ v

/-- Models `value.slice(-1)`: the last character as a string, or the empty
string when there is none. -/
def lastCharStr (s : String) : String :=
  match s.toList.getLast? with
  | some c => String.mk [c]
  | none => ""

/-- Models `value.slice(0, -1)`: the string without its last character. -/
def dropLastStr (s : String) : String := String.mk s.toList.dropLast

/-- Models `/[+\-*\/]/.test(s)`: the string contains one of the four
operator characters (applied to at most one character here). -/
def isOpStr (s : String) : Bool :=
  s.toList.any (fun c => c = '+' || c = '-' || c = '*' || c = '/')

/-- Models `handleOperatorClick` (src/app.js lines 330-352) as a pure
function on the display value. Note the JS reads `currentValue` before
clearing an error marker, so the emptiness test and the last-character test
are evaluated against the pre-clear content, while `appendToDisplay` sees
the cleared display. -/
def handleOperatorClick (display v : String) : String :=
  let currentValue := display
  let cleared := if isErrorVal currentValue then "" else display
  if currentValue == ("") && v != ("-") then cleared
  else if isOpStr (lastCharStr currentValue) && v != ("-") then
    dropLastStr currentValue ++ v
  else appendToDisplay cleared v

/-- A calculation-history entry (src/app.js line 223); timestamps are
modelled as naturals. -/
structure HistoryEntry where
  expression : String
  result : ℚ
  timestamp : Nat
deriving DecidableEq

/-- The history cap `this.maxHistoryItems` (src/app.js line 219). -/
def maxHistoryItems : Nat := 10

namespace CalculatorState

/-- Models `CalculatorState.addToHistory` (src/app.js lines 222-228):
`unshift` prepends the new entry; when the length then exceeds the cap,
`pop` removes the last (oldest) entry. -/
def addToHistory (history : List HistoryEntry) (e : HistoryEntry) :
    List HistoryEntry :=
  let h := e :: history
  if h.length > maxHistoryItems then h.dropLast else h

/-- Models `CalculatorState.clearHistory` (src/app.js lines 249-252). -/
def clearHistory : List HistoryEntry := []

end CalculatorState

/-- The history-mutating operations reachable from the UI. -/
inductive HistOp where
  | add (e : HistoryEntry)
  | clear

/-- Run a sequence of history operations from the initial empty history
(src/app.js line 218). -/
def applyHistOps (ops : List HistOp) : List HistoryEntry :=
  ops.foldl
    (fun h op =>
      match op with
      | HistOp.add e => CalculatorState.addToHistory h e
      | HistOp.clear => CalculatorState.clearHistory)
    []

/-- Model sanity check against §8 of the spec: the empty expression. -/
theorem evaluate_empty_sanity :
    SafeCalculator.evaluate 1 ("") =
      some (EvalRes.err CalcError.emptyExpression) := by
  decide

/-- Model sanity check against §8 of the spec: an unclosed parenthesis. -/
theorem evaluate_unmatched_sanity :
    SafeCalculator.evaluate 1 ("(2+3") =
      some (EvalRes.err CalcError.unmatchedParens) := by
  decide

/-- Model sanity check against §8 of the spec: a power expression, going
through the rewrite to `Math.pow(2,3)` and its execution. -/
theorem evaluate_pow_sanity :
    SafeCalculator.evaluate 1 ("2^3") = some (EvalRes.num 8) := by
  with_unfolding_all decide

/-- Model sanity check: exact-rational execution plus 8-decimal rounding
reproduces the JS behaviour on `0.1+0.2` (the float noise is rounded away). -/
theorem evaluate_round_sanity :
    SafeCalculator.evaluate 3 ("0.1+0.2") = some (EvalRes.num (3 / 10)) := by
  with_unfolding_all decide

/-- On the input `"^"` one pass of the rewrite changes nothing: the regex
needs a base before the caret.  Hence the while loop makes no progress. -/
theorem replacePowAll_caret : replacePowAll ['^'] = ['^'] := by
  decide

/-- The rewrite loop never terminates on `"^"`: at every step budget the
budget is exhausted with the loop still running. -/
theorem powLoopGo_caret (n : Nat) : powLoopGo n ['^'] = none := by
  induction n with
  | zero => rfl
  | succ n ih =>
    rw [powLoopGo, replacePowAll_caret]
    simpa using ih

/-- C1: REFUTED (code bug).  The claim says the `^` rewriting is bounded to
at most 10 passes, with `Error(TooManyPowerOps)` beyond the bound, making
`evaluate` total.  In the code the iteration guard only fires when at least
ten carets remain after a pass, so on the input `"^"` (whose single caret is
never matched by the rewrite regex and never removed) the `while` loop of
src/app.js lines 28-40 spins forever: for every step budget `n` the embedded
loop is still running, so `evaluate` is not total.  This contradicts the
code's own comment `Safety check to prevent infinite loop`. -/
theorem C1_evaluate_diverges_on_caret (n : Nat) :
    SafeCalculator.evaluate n ("^") = none := by
  have h1 : isWS '^' = false := by decide
  have hnorm : normalizeInput ("^") = ['^'] := by decide
  simp [SafeCalculator.evaluate, prepare, powPhase, h1, hnorm,
    powLoopGo_caret n]

/-- C2, counterexample: the claim predicted that an input where `/0` is
followed by a decimal digit, such as `"5/01"`, is not rejected by the
division check; in the code the lookahead of `/\/\s*0(?!\.)/` excludes only
a dot, so `"5/01"` IS rejected with `Error(DivisionByZero)`. -/
theorem C2_counterexample :
    SafeCalculator.evaluate 1 ("5/01") =
      some (EvalRes.err CalcError.divisionByZero) := by
  decide

/-- C2, amended: for every input whose sanitization succeeds (so the text
reaches the division check), `evaluate` returns `Error(DivisionByZero)`
exactly when the sanitized text contains `/0` not followed by a decimal
POINT (the regex lookahead is `(?!\.)`, not a digit test); so `"5/01"` is
rejected while `"5/0.5"` is not. -/
theorem C2_divzero_check_characterization (fuel : Nat) (s : String)
    (e : List Char) (h : prepare fuel s = some (Except.ok e)) :
    (SafeCalculator.evaluate fuel s =
        some (EvalRes.err CalcError.divisionByZero) ↔
      divZeroMatch e = true) := by
  unfold SafeCalculator.evaluate
  rw [h]
  by_cases hd : divZeroMatch e = true
  · simp [hd]
  · have hd' : divZeroMatch e = false := by simpa using hd
    simp only [hd', Bool.false_eq_true, if_false, Option.some.injEq]
    constructor
    · intro hr
      exfalso
      cases hx : execJS e <;> simp [runExec, hx] at hr
    · intro hfalse
      cases hfalse

/-- C2, witness: the amended characterization applied to the concrete input
`"5/01"`, whose sanitized text is itself. -/
theorem C2_divzero_check_characterization_witness :
    prepare 1 ("5/01") = some (Except.ok (("5/01").toList)) ∧
    (SafeCalculator.evaluate 1 ("5/01") =
        some (EvalRes.err CalcError.divisionByZero) ↔
      divZeroMatch (("5/01").toList) = true) :=
  ⟨by with_unfolding_all rfl,
   C2_divzero_check_characterization 1 ("5/01") (("5/01").toList)
     (by with_unfolding_all rfl)⟩

/-- Every error kind's message is among the eleven messages the code can
produce. -/
theorem errorMessage_mem_allowed (k : CalcError) :
    errorMessage k ∈ allowedMessages := by
  cases k <;> decide

/-- C3, counterexample: on the input `"2^3#"` a power rewrite occurs, the
rewritten text `Math.pow(2,3)#` contains the disallowed character `#`, and
`evaluate` returns the error `Error: Invalid power expression` — which is
not `Error(InvalidCharacters)` and lies outside the ten-kind taxonomy of
§7. -/
theorem C3_counterexample :
    SafeCalculator.evaluate 1 ("2^3#") =
        some (EvalRes.err CalcError.invalidPowerExpression) ∧
    CalcError.invalidPowerExpression ≠ CalcError.invalidCharacters ∧
    errorMessage CalcError.invalidPowerExpression ∉ taxonomyMessages := by
  refine ⟨by decide, by decide, by decide⟩

/-- C3, amended: a disallowed character yields `Error(InvalidCharacters)`
when no power rewrite occurred; when a rewrite occurred the character
validation instead yields the distinct message `Error: Invalid power
expression`; and every error returned by evaluate, sqrt, power or
percentage is one of the ELEVEN message strings (the ten of the §7 taxonomy
plus that extra one). -/
theorem C3_charset_and_taxonomy :
    (∀ (fuel : Nat) (s : String),
      (s.toList.all isWS) = false →
      ('^' ∉ normalizeInput s) →
      matchesAll originalAllowed (stripWS (normalizeInput s)) = false →
      SafeCalculator.evaluate fuel s =
        some (EvalRes.err CalcError.invalidCharacters)) ∧
    (∀ (fuel : Nat) (s : String) (k : CalcError),
      SafeCalculator.evaluate fuel s = some (EvalRes.err k) →
      errorMessage k ∈ allowedMessages) ∧
    (∀ (x : ℚ) (k : CalcError), SafeCalculator.sqrt x = Except.error k →
      errorMessage k ∈ allowedMessages) ∧
    (∀ (b e : ℚ) (k : CalcError), SafeCalculator.power b e = Except.error k →
      errorMessage k ∈ allowedMessages) ∧
    (∀ (fuel : Nat) (s : String) (k : CalcError),
      SafeCalculator.percentage fuel s = some (EvalRes.err k) →
      errorMessage k ∈ allowedMessages) := by
  refine ⟨?_, ?_, ?_, ?_, ?_⟩
  · intro fuel s h1 h2 h3
    have h1' : ¬ (∀ x ∈ s.data, isWS x = true) := fun hall => by
      simp only [List.all_eq_false] at h1
      obtain ⟨x, hx, hfx⟩ := h1
      simp [hall x hx] at hfx
    simp [SafeCalculator.evaluate, prepare, powPhase, validatePhase,
      h1', h2, h3]
  · intro _ _ k _
    exact errorMessage_mem_allowed k
  · intro _ k _
    exact errorMessage_mem_allowed k
  · intro _ _ k _
    exact errorMessage_mem_allowed k
  · intro _ _ k _
    exact errorMessage_mem_allowed k

/-- C3, witness: the amended theorem applied at the concrete inputs
`"2+a"` (no rewrite, disallowed letter) and `"(2+3"` (an error of the
eleven-message set). -/
theorem C3_charset_and_taxonomy_witness :
    SafeCalculator.evaluate 1 ("2+a") =
        some (EvalRes.err CalcError.invalidCharacters) ∧
    errorMessage CalcError.unmatchedParens ∈ allowedMessages :=
  ⟨C3_charset_and_taxonomy.1 1 ("2+a") (by decide) (by decide) (by decide),
   C3_charset_and_taxonomy.2.1 1 ("(2+3") CalcError.unmatchedParens
     (by decide)⟩

/-- C4, counterexample: the claim says an operator following another
operator always replaces it, but the replacement branch of
`handleOperatorClick` (src/app.js line 345) is guarded by `value !== '-'`,
so a minus after `"5+"` is appended, giving `"5+-"` instead of `"5-"`. -/
theorem C4_counterexample :
    handleOperatorClick ("5+") ("-") = "5+-" ∧ ("5+-" : String) ≠ "5-" := by
  refine ⟨by decide, by decide⟩

/-- C4, amended: for a non-error display, (a) an empty display accepts only
the unary minus (other operators leave it unchanged), and (b) when the last
display character is an operator, an incoming operator OTHER THAN `-`
replaces it, while an incoming `-` (or any operator after a non-operator
character) is appended. -/
theorem C4_operator_input (d v : String)
    (hv : v = "+" ∨ v = "-" ∨ v = "*" ∨ v = "/")
    (he : isErrorVal d = false) :
    (d = "" → v ≠ "-" → handleOperatorClick d v = "") ∧
    (d = "" → v = "-" → handleOperatorClick d v = "-") ∧
    (d ≠ "" → isOpStr (lastCharStr d) = true → v ≠ "-" →
      handleOperatorClick d v = dropLastStr d ++ v) ∧
    (d ≠ "" → (isOpStr (lastCharStr d) = false ∨ v = "-") →
      handleOperatorClick d v = d ++ v) := by
  refine ⟨?_, ?_, ?_, ?_⟩
  · intro hd hne
    subst hd
    rcases hv with rfl | rfl | rfl | rfl
    · rfl
    · exact absurd rfl hne
    · rfl
    · rfl
  · intro hd hveq
    subst hd
    subst hveq
    rfl
  · intro hd hop hne
    have hbd : (d == ("")) = false := by
      simpa using hd
    have hbv : (v != ("-")) = true := by
      rcases hv with rfl | rfl | rfl | rfl
      · rfl
      · exact absurd rfl hne
      · rfl
      · rfl
    simp [handleOperatorClick, hbd, hbv, hop, he]
  · intro hd hcase
    have hbd : (d == ("")) = false := by
      simpa using hd
    rcases hcase with hop | hveq
    · simp [handleOperatorClick, appendToDisplay, hbd, hop, he]
    · subst hveq
      simp [handleOperatorClick, appendToDisplay, hbd, he]

/-- C4, witness: the amended behaviour at the concrete display `"5+"` with
the incoming operator `"*"`, which replaces the trailing `+`. -/
theorem C4_operator_input_witness :
    handleOperatorClick ("5+") ("*") = dropLastStr ("5+") ++ ("*") :=
  (C4_operator_input ("5+") ("*") (Or.inr (Or.inr (Or.inl rfl)))
      (by decide)).2.2.1 (by decide) (by decide) (by decide)

/-- C5: every successful result of `evaluate` is exactly the raw value
computed by the execution primitive on the sanitized text, rounded to 8
decimal places by `Math.round(r * 10^8) / 10^8` (src/app.js line 79).  In
this exact-rational model the raw computed value is the true mathematical
value of the expression. -/
theorem C5_success_is_rounded (fuel : Nat) (s : String) (q : ℚ)
    (h : SafeCalculator.evaluate fuel s = some (EvalRes.num q)) :
    ∃ (e : List Char) (r : ℚ),
      prepare fuel s = some (Except.ok e) ∧ divZeroMatch e = false ∧
      execJS e = ExecOut.val r ∧ q = jsRound8 r := by
  unfold SafeCalculator.evaluate at h
  cases hp : prepare fuel s with
  | none => rw [hp] at h; cases h
  | some x =>
    cases x with
    | error k => rw [hp] at h; simp at h
    | ok e =>
      rw [hp] at h
      by_cases hd : divZeroMatch e = true
      · simp [hd] at h
      · have hd' : divZeroMatch e = false := by simpa using hd
        simp only [hd', Bool.false_eq_true, if_false, Option.some.injEq] at h
        cases hx : execJS e with
        | val r =>
          refine ⟨e, r, rfl, hd', hx, ?_⟩
          rw [runExec, hx] at h
          cases h
          rfl
        | nonFinite => rw [runExec, hx] at h; cases h
        | thrown => rw [runExec, hx] at h; cases h

/-- C5, witness: applied at the concrete input `"2+2"`, whose successful
result 4 is the 8-decimal rounding of the raw value. -/
theorem C5_success_is_rounded_witness :
    SafeCalculator.evaluate 1 ("2+2") = some (EvalRes.num 4) ∧
    ∃ (e : List Char) (r : ℚ),
      prepare 1 ("2+2") = some (Except.ok e) ∧ divZeroMatch e = false ∧
      execJS e = ExecOut.val r ∧ (4 : ℚ) = jsRound8 r :=
  ⟨by with_unfolding_all decide,
   C5_success_is_rounded 1 ("2+2") 4 (by with_unfolding_all decide)⟩

/-- C6: `evaluate("5/0")` is the division-by-zero error (the text matches
the `/0`-not-before-a-dot pattern) and `evaluate("5/0.5")` is the number 10
(the pattern does not match, and 5 divided by 0.5 is exactly 10, whose
8-decimal rounding is itself). -/
theorem C6_div_examples :
    SafeCalculator.evaluate 1 ("5/0") =
        some (EvalRes.err CalcError.divisionByZero) ∧
    SafeCalculator.evaluate 1 ("5/0.5") = some (EvalRes.num 10) := by
  refine ⟨by decide, by with_unfolding_all decide⟩

/-- One `addToHistory` step keeps the history within the 10-entry cap. -/
theorem addToHistory_length_le (h : List HistoryEntry) (e : HistoryEntry)
    (hh : h.length ≤ 10) :
    (CalculatorState.addToHistory h e).length ≤ 10 := by
  show (if (e :: h).length > maxHistoryItems then (e :: h).dropLast
        else (e :: h)).length ≤ 10
  split
  · simpa using hh
  · next hc =>
    simp only [List.length_cons, maxHistoryItems] at hc ⊢
    omega

/-- C7: after any sequence of add/clear operations from the empty history
the length never exceeds 10; and adding to a history of exactly 10 entries
prepends the new entry and evicts the last (oldest) one. -/
theorem C7_history_cap :
    (∀ ops : List HistOp, (applyHistOps ops).length ≤ 10) ∧
    (∀ (h : List HistoryEntry) (e : HistoryEntry), h.length = 10 →
      CalculatorState.addToHistory h e = e :: h.dropLast) := by
  constructor
  · have aux : ∀ (ops : List HistOp) (h : List HistoryEntry),
        h.length ≤ 10 →
        (ops.foldl
          (fun h op =>
            match op with
            | HistOp.add e => CalculatorState.addToHistory h e
            | HistOp.clear => CalculatorState.clearHistory) h).length ≤ 10 := by
      intro ops
      induction ops with
      | nil =>
        intro h hh
        simpa using hh
      | cons o t ih =>
        intro h hh
        cases o with
        | add e => exact ih _ (addToHistory_length_le h e hh)
        | clear => exact ih _ (by simp [CalculatorState.clearHistory])
    intro ops
    exact aux ops [] (by simp)
  · intro h e hh
    show (if (e :: h).length > maxHistoryItems then (e :: h).dropLast
          else (e :: h)) = e :: h.dropLast
    rw [if_pos (by simp [hh, maxHistoryItems])]
    cases h with
    | nil => simp at hh
    | cons a t => rfl

/-- C7, witness: the eviction law applied to a concrete history of exactly
10 entries. -/
theorem C7_history_cap_witness :
    CalculatorState.addToHistory
        (List.replicate 10 (HistoryEntry.mk ("") 0 0))
        (HistoryEntry.mk ("1+1") 2 1) =
      HistoryEntry.mk ("1+1") 2 1 ::
        (List.replicate 10 (HistoryEntry.mk ("") 0 0)).dropLast :=
  C7_history_cap.2 (List.replicate 10 (HistoryEntry.mk ("") 0 0))
    (HistoryEntry.mk ("1+1") 2 1) (by simp)

/-- C8: `sqrt` returns `Error(NegativeSqrt)` exactly on negative inputs and
otherwise the principal (non-negative) square root; in particular
`sqrt(-1)` is the error and `sqrt(4)` is 2. -/
theorem C8_sqrt_spec :
    (∀ x : ℚ, x < 0 →
      SafeCalculator.sqrt x = Except.error CalcError.negativeSqrt) ∧
    (∀ x : ℚ, 0 ≤ x → ∃ r : Real, SafeCalculator.sqrt x = Except.ok r ∧
      0 ≤ r ∧ r ^ 2 = (x : Real)) ∧
    SafeCalculator.sqrt (-1) = Except.error CalcError.negativeSqrt ∧
    SafeCalculator.sqrt 4 = Except.ok 2 := by
  refine ⟨?_, ?_, ?_, ?_⟩
  · intro x hx
    simp [SafeCalculator.sqrt, hx]
  · intro x hx
    refine ⟨Real.sqrt (x : Real), ?_, Real.sqrt_nonneg _, ?_⟩
    · simp [SafeCalculator.sqrt, not_lt.mpr hx]
    · rw [sq]
      exact Real.mul_self_sqrt (by exact_mod_cast hx)
  · have hx : (-1 : ℚ) < 0 := by norm_num
    simp [SafeCalculator.sqrt, hx]
  · have hx : ¬ ((4 : ℚ) < 0) := by norm_num
    simp only [SafeCalculator.sqrt, hx, if_false]
    have h4 : ((4 : ℚ) : Real) = (2 : Real) ^ 2 := by norm_num
    rw [h4, Real.sqrt_sq (by norm_num : (0 : Real) ≤ 2)]

/-- C8, witness: the two guarded branches applied at concrete inputs. -/
theorem C8_sqrt_spec_witness :
    SafeCalculator.sqrt (-9) = Except.error CalcError.negativeSqrt ∧
    ∃ r : Real, SafeCalculator.sqrt 9 = Except.ok r ∧ 0 ≤ r ∧
      r ^ 2 = ((9 : ℚ) : Real) :=
  ⟨C8_sqrt_spec.1 (-9) (by norm_num), C8_sqrt_spec.2.1 9 (by norm_num)⟩

/-- C9: `percentage` delegates to `evaluate`: a numeric result is divided
by 100, an error result is propagated unchanged. -/
theorem C9_percentage_delegates (fuel : Nat) (s : String) :
    (∀ v : ℚ, SafeCalculator.evaluate fuel s = some (EvalRes.num v) →
      SafeCalculator.percentage fuel s = some (EvalRes.num (v / 100))) ∧
    (∀ k : CalcError, SafeCalculator.evaluate fuel s = some (EvalRes.err k) →
      SafeCalculator.percentage fuel s = some (EvalRes.err k)) := by
  constructor
  · intro v h
    simp [SafeCalculator.percentage, h]
  · intro k h
    simp [SafeCalculator.percentage, h]

/-- C9, witness: delegation at the concrete inputs `"2+2"` (number) and
`"5/0"` (error, propagated unchanged). -/
theorem C9_percentage_delegates_witness :
    SafeCalculator.percentage 1 ("2+2") = some (EvalRes.num (4 / 100)) ∧
    SafeCalculator.percentage 1 ("5/0") =
      some (EvalRes.err CalcError.divisionByZero) :=
  ⟨(C9_percentage_delegates 1 ("2+2")).1 4 (by with_unfolding_all decide),
   (C9_percentage_delegates 1 ("5/0")).2 CalcError.divisionByZero (by decide)⟩

/-- C10: when the display shows any of the error markers the code produces,
an operator click clears the marker and leaves the display holding exactly
the operator — for every one of the four operators, not only the unary
minus, because the emptiness restriction tests the pre-clear (non-empty)
error text while the append sees the cleared display. -/
theorem C10_operator_clears_error (k : CalcError) (v : String)
    (hv : v = "+" ∨ v = "-" ∨ v = "*" ∨ v = "/") :
    handleOperatorClick (errorMessage k) v = v := by
  rcases hv with rfl | rfl | rfl | rfl <;> cases k <;> decide

/-- C10, witness: a plus click on the division-by-zero marker leaves just
`"+"` in the display. -/
theorem C10_operator_clears_error_witness :
    handleOperatorClick (errorMessage CalcError.divisionByZero) ("+") = "+" :=
  C10_operator_clears_error CalcError.divisionByZero ("+") (Or.inl rfl)
